import Mathlib

/-!
Shallow embedding of `wagtail/wagtailcore/blocks/field_block.py`.

Each Python class method is translated to a Lean definition.  External
collaborators (Django form fields, widgets, the template engine, the ORM and
`django.utils.dateparse`) are not part of the repository; they are modelled
from the spec's description of their contract, and each such definition says
so in its doc comment.  Machine behaviour that the claims depend on, the
branching of `to_python` / `get_prep_value` / `clean` / `render_form` and the
block constructors, is translated directly from the source.
-/

/-- A calendar date, standing in for Python `datetime.date`. -/
structure Date where
  year : Nat
  month : Nat
  day : Nat
deriving DecidableEq

/-- A time of day, standing in for Python `datetime.time`. -/
structure Time where
  hour : Nat
  minute : Nat
  second : Nat
deriving DecidableEq

/-- A date with a time of day, standing in for Python `datetime.datetime`. -/
structure DateTime where
  date : Date
  time : Time
deriving DecidableEq

/-- Split a character list at every separator accepted by `p`
(the separators themselves are dropped). -/
def splitChars (p : Char → Bool) : List Char → List (List Char)
  | [] => [[]]
  | c :: rest =>
    let r := splitChars p rest
    if p c then [] :: r
    else
      match r with
      | [] => [[c]]
      | g :: gs => (c :: g) :: gs

/-- Numeric value of a non-empty all-digit character group; `none` otherwise. -/
def digitsVal (cs : List Char) : Option Nat :=
  if cs = [] then none
  else if cs.all Char.isDigit then
    some (cs.foldl (fun a c => a * 10 + (c.toNat - 48)) 0)
  else none

/-- Modelled from the spec: `django.utils.dateparse.parse_date`, the "strict
date parser" the spec names — accepts `YYYY-M-D` with a four-digit year and
in-range month and day, and returns an unparseable-input signal (`none`) on
any failure instead of raising. -/
def parse_date_chars (cs : List Char) : Option Date :=
  match splitChars (fun c => c == '-') cs with
  | [y, m, d] => do
    let year ← digitsVal y
    let month ← digitsVal m
    let day ← digitsVal d
    if y.length = 4 ∧ m.length ≤ 2 ∧ d.length ≤ 2 ∧
        1 ≤ month ∧ month ≤ 12 ∧ 1 ≤ day ∧ day ≤ 31 then
      some ⟨year, month, day⟩
    else none
  | _ => none

/-- Modelled from the spec: `django.utils.dateparse.parse_date` on strings. -/
def parse_date (s : String) : Option Date :=
  parse_date_chars s.toList

/-- Modelled from the spec: `django.utils.dateparse.parse_time`, the "strict
time parser" — accepts `HH:MM` or `HH:MM:SS` with in-range components, and
returns `none` on any failure instead of raising. -/
def parse_time_chars (cs : List Char) : Option Time :=
  match splitChars (fun c => c == ':') cs with
  | [h, m] => do
    let hour ← digitsVal h
    let minute ← digitsVal m
    if h.length ≤ 2 ∧ m.length ≤ 2 ∧ hour ≤ 23 ∧ minute ≤ 59 then
      some ⟨hour, minute, 0⟩
    else none
  | [h, m, sec] => do
    let hour ← digitsVal h
    let minute ← digitsVal m
    let second ← digitsVal sec
    if h.length ≤ 2 ∧ m.length ≤ 2 ∧ sec.length ≤ 2 ∧
        hour ≤ 23 ∧ minute ≤ 59 ∧ second ≤ 59 then
      some ⟨hour, minute, second⟩
    else none
  | _ => none

/-- Modelled from the spec: `django.utils.dateparse.parse_time` on strings. -/
def parse_time (s : String) : Option Time :=
  parse_time_chars s.toList

/-- Modelled from the spec: `django.utils.dateparse.parse_datetime`, the
"strict datetime parser" — a date, a space or `T` separator, then a time;
`none` on any failure instead of raising. -/
def parse_datetime (s : String) : Option DateTime :=
  match splitChars (fun c => c == ' ' || c == 'T') s.toList with
  | [ds, ts] => do
    let d ← parse_date_chars ds
    let t ← parse_time_chars ts
    some ⟨d, t⟩
  | _ => none

/-- The value space a `DateBlock` works over: Python `None`, a native
`datetime.date`, or a string that survived the JSON storage round trip. -/
inductive DateValue where
  | none
  | date (d : Date)
  | str (s : String)
deriving DecidableEq

/-- The value space a `TimeBlock` works over. -/
inductive TimeValue where
  | none
  | time (t : Time)
  | str (s : String)
deriving DecidableEq

/-- The value space a `DateTimeBlock` works over. -/
inductive DateTimeValue where
  | none
  | datetime (dt : DateTime)
  | str (s : String)
deriving DecidableEq

/-- `DateBlock.to_python`: `if value is None or isinstance(value, datetime.date):
return value else: return parse_date(value)`. -/
def DateBlock.to_python : DateValue → DateValue
  | DateValue.none => DateValue.none
  | DateValue.date d => DateValue.date d
  | DateValue.str s =>
    match parse_date s with
    | some d => DateValue.date d
    | none => DateValue.none

/-- `TimeBlock.to_python`: `if value is None or isinstance(value, datetime.time):
return value else: return parse_time(value)`. -/
def TimeBlock.to_python : TimeValue → TimeValue
  | TimeValue.none => TimeValue.none
  | TimeValue.time t => TimeValue.time t
  | TimeValue.str s =>
    match parse_time s with
    | some t => TimeValue.time t
    | none => TimeValue.none

/-- `DateTimeBlock.to_python`: `if value is None or isinstance(value,
datetime.datetime): return value else: return parse_datetime(value)`. -/
def DateTimeBlock.to_python : DateTimeValue → DateTimeValue
  | DateTimeValue.none => DateTimeValue.none
  | DateTimeValue.datetime dt => DateTimeValue.datetime dt
  | DateTimeValue.str s =>
    match parse_datetime s with
    | some dt => DateTimeValue.datetime dt
    | none => DateTimeValue.none

/-- A record of the `Page` model (the chooser's target model): a primary key
plus the two attributes `PageChooserBlock.render_basic` reads. -/
structure Page where
  id : Nat
  url : String
  title : String
deriving DecidableEq

/-- Django's `pk` alias for the primary-key field `id`. -/
def Page.pk (p : Page) : Nat := p.id

/-- The value space a `ChooserBlock` works over: Python `None`, an instance of
the target model, or a bare identifier (as stored in JSON). -/
inductive ChooserValue where
  | none
  | inst (p : Page)
  | pk (n : Nat)
deriving DecidableEq

/-- Modelled from the spec: the backing store's get-by-id lookup
(`target_model.objects.get(pk=...)`), with `DoesNotExist` rendered as `none`.
The store is the list of persisted records. -/
def objects_get (store : List Page) (pk : Nat) : Option Page :=
  store.find? (fun p => p.id == pk)

/-- `ChooserBlock.to_python`: return `None` and target-model instances as-is;
otherwise look the identifier up, catching `DoesNotExist` as `None`. -/
def ChooserBlock.to_python (store : List Page) : ChooserValue → ChooserValue
  | ChooserValue.none => ChooserValue.none
  | ChooserValue.inst p => ChooserValue.inst p
  | ChooserValue.pk n =>
    match objects_get store n with
    | some p => ChooserValue.inst p
    | none => ChooserValue.none

/-- `ChooserBlock.get_prep_value`: `value.id` for a target-model instance,
pass anything else through unchanged. -/
def ChooserBlock.get_prep_value : ChooserValue → ChooserValue
  | ChooserValue.inst p => ChooserValue.pk p.id
  | v => v

/-- `forms.ModelChoiceField(queryset=..., widget=..., required=...)` as
constructed by `ChooserBlock.field` (the widget plays no role in `clean` and
is modelled separately for `render_form`). -/
structure ModelChoiceField where
  queryset : List Page
  required : Bool
deriving DecidableEq

/-- Modelled from the spec: `forms.ModelChoiceField.clean` — the underlying
field's validator "expects an identifier, not an instance"; an empty value is
a `required` violation when the field is required, an identifier is looked up
in the queryset and an absent or non-identifier value is an invalid choice. -/
def ModelChoiceField.clean (f : ModelChoiceField) (value : ChooserValue) :
    Except String (Option Page) :=
  match value with
  | ChooserValue.none =>
    if f.required then Except.error "This field is required."
    else Except.ok none
  | ChooserValue.pk n =>
    match objects_get f.queryset n with
    | some p => Except.ok (some p)
    | none => Except.error "Select a valid choice."
  | ChooserValue.inst _ => Except.error "Select a valid choice."

/-- `FieldBlock.clean`: `return self.field.clean(value)` — pure delegation to
the underlying form field's validator. -/
def FieldBlock.clean {α β : Type} (field_clean : α → β) (value : α) : β :=
  field_clean value

/-- `ChooserBlock.field`: `ModelChoiceField(queryset=self.target_model.objects.all(),
widget=self.widget, required=self.required)`. -/
def ChooserBlock.field (store : List Page) (required : Bool) : ModelChoiceField :=
  ⟨store, required⟩

/-- `ChooserBlock.clean`: convert a target-model instance back to `value.pk`,
then `super().clean(value)`, i.e. delegate to the field's `clean`. -/
def ChooserBlock.clean (field : ModelChoiceField) (value : ChooserValue) :
    Except String (Option Page) :=
  let value :=
    match value with
    | ChooserValue.inst p => ChooserValue.pk p.pk
    | v => v
  FieldBlock.clean (ModelChoiceField.clean field) value

/-- A Python string value together with Django's "safe" (trusted HTML) mark. -/
structure PyStr where
  value : String
  safe : Bool
deriving DecidableEq

/-- Modelled from the spec: `django.utils.safestring.mark_safe` — the string
itself, marked trusted for direct HTML output. -/
def mark_safe (s : String) : PyStr := ⟨s, true⟩

/-- Modelled from the spec: Django HTML escaping of one character, as used by
`format_html` on its interpolated arguments. -/
def escape_char (c : Char) : String :=
  if c = '&' then "&amp;"
  else if c = '<' then "&lt;"
  else if c = '>' then "&gt;"
  else if c = '\"' then "&quot;"
  else if c = '\'' then "&#39;"
  else String.singleton c

/-- Modelled from the spec: Django HTML escaping of a string. -/
def escape_html (s : String) : String :=
  String.join (s.toList.map escape_char)

/-- `RawHTMLBlock.render_basic`: `return mark_safe(value)` — the stored string
itself, unescaped, marked trusted. -/
def RawHTMLBlock.render_basic (value : String) : PyStr :=
  mark_safe value

/-- `PageChooserBlock.render_basic`: a truthy value (a page instance) renders
as `format_html('<a href="{0}">{1}</a>', value.url, value.title)` — an anchor
whose interpolated arguments are HTML-escaped and whose result is marked safe;
a falsy value (no page set) renders as the plain empty string. -/
def PageChooserBlock.render_basic : Option Page → PyStr
  | some p =>
    ⟨"<a href=\"" ++ escape_html p.url ++ "\">" ++ escape_html p.title ++ "</a>", true⟩
  | none => ⟨"", false⟩

/-- The `widget_attrs` dict built by `FieldBlock.render_form`:
`{'id': prefix, 'placeholder': self.label}`. -/
structure WidgetAttrs where
  id : String
  placeholder : String
deriving DecidableEq

/-- Modelled from the spec: a Django form widget as `render_form` and
`value_from_datadict` use it.  `ρ` is the raw submitted-value type, `α` the
block's value type.  `hasattr(widget, 'render_with_errors')` becomes the
optionality of that method: `some` when the widget can render its own errors,
`none` when it cannot. -/
structure Widget (ρ α : Type) where
  id_for_label : String → String
  render : String → α → WidgetAttrs → String
  render_with_errors : Option (String → α → WidgetAttrs → Option (List String) → String)
  value_from_datadict : List (String × String) → List (String × String) → String → ρ

/-- The context dict handed to `render_to_string` by `FieldBlock.render_form`;
`φ` is the type of the block's form field (passed through as `'field'`). -/
structure TemplateContext (φ : Type) where
  name : String
  label : String
  classes : Option String
  widget : String
  label_tag : PyStr
  field : φ
  errors : Option (List String)

/-- Modelled from the spec: the external template engine call
`render_to_string(template, context)`, kept uninterpreted as the pair of its
arguments ("an HTML templating call" outside this module). -/
structure RenderedTemplate (φ : Type) where
  template : String
  context : TemplateContext φ

/-- Modelled from the spec: `django.template.loader.render_to_string`. -/
def render_to_string {φ : Type} (template : String) (context : TemplateContext φ) :
    RenderedTemplate φ :=
  ⟨template, context⟩

/-- `FieldBlock.render_form(value, prefix, errors)`: build `label_html` with
`format_html` when the label is truthy, render the widget through
`render_with_errors` when the widget has that attribute (and then pass
`errors=None` to the template) or through plain `render` otherwise (and then
pass the errors to the template), and call `render_to_string` on the field
template with the context dict. -/
def FieldBlock.render_form {ρ α φ : Type} (name label : String)
    (classname : Option String) (field : φ) (widget_of : φ → Widget ρ α)
    (value : α) (pfx : String) (errors : Option (List String)) :
    RenderedTemplate φ :=
  let widget := widget_of field
  let label_html : PyStr :=
    if label ≠ "" then
      ⟨"<label for=" ++ escape_html (widget.id_for_label pfx) ++ ">" ++
        escape_html label ++ "</label> ", true⟩
    else ⟨"", false⟩
  let widget_attrs : WidgetAttrs := ⟨pfx, label⟩
  let rendered :=
    match widget.render_with_errors with
    | some rwe => (rwe pfx value widget_attrs errors, true)
    | none => (widget.render pfx value widget_attrs, false)
  render_to_string "wagtailadmin/block_forms/field.html"
    ⟨name, label, classname, rendered.1, label_html, field,
      if rendered.2 then none else errors⟩

/-- `FieldBlock.value_from_datadict(data, files, prefix)`:
`self.to_python(self.field.widget.value_from_datadict(data, files, prefix))`. -/
def FieldBlock.value_from_datadict {ρ α : Type} (field_widget : Widget ρ α)
    (to_python : ρ → α) (data files : List (String × String)) (pfx : String) : α :=
  to_python (field_widget.value_from_datadict data files pfx)

/-- `forms.CharField(required=..., help_text=..., max_length=..., min_length=...)`
as constructed by the Char, URL, RawHTML and RichText blocks (URL validation
and the widget choice play no role in the claims and are not modelled). -/
structure CharField where
  required : Bool
  help_text : Option String
  max_length : Option Nat
  min_length : Option Nat
deriving DecidableEq

/-- Whether a `max_length` constraint is violated. -/
def CharField.tooLong (f : CharField) (s : String) : Bool :=
  match f.max_length with
  | some m => decide (m < s.length)
  | none => false

/-- Whether a `min_length` constraint is violated (Django skips validators on
an empty optional value). -/
def CharField.tooShort (f : CharField) (s : String) : Bool :=
  match f.min_length with
  | some m => decide (s.length < m ∧ s ≠ "")
  | none => false

/-- Modelled from the spec: `forms.CharField.clean` — "clean raises a
validation error when a required field receives an empty value, and does not
raise when an optional field receives an empty value"; length-constraint
violations are likewise surfaced as validation errors. -/
def CharField.clean (f : CharField) (value : Option String) :
    Except String String :=
  let s := value.getD ""
  if f.required = true ∧ s = "" then Except.error "This field is required."
  else if f.tooLong s then Except.error "Ensure this value has at most the maximum number of characters."
  else if f.tooShort s then Except.error "Ensure this value has at least the minimum number of characters."
  else Except.ok s

/-- `CharBlock.__init__`: `self.field = forms.CharField(required=required,
help_text=help_text, max_length=max_length, min_length=min_length)`. -/
def CharBlock.field (required : Bool) (help_text : Option String)
    (max_length min_length : Option Nat) : CharField :=
  ⟨required, help_text, max_length, min_length⟩

/-- `URLBlock.__init__`: `self.field = forms.URLField(required=required,
help_text=help_text, max_length=max_length, min_length=min_length)`. -/
def URLBlock.field (required : Bool) (help_text : Option String)
    (max_length min_length : Option Nat) : CharField :=
  ⟨required, help_text, max_length, min_length⟩

/-- `RawHTMLBlock.__init__`: `self.field = forms.CharField(..., widget=Textarea)`. -/
def RawHTMLBlock.field (required : Bool) (help_text : Option String)
    (max_length min_length : Option Nat) : CharField :=
  ⟨required, help_text, max_length, min_length⟩

/-- `RichTextBlock.field`: `forms.CharField(widget=RichTextArea)` — every
constructor argument other than the widget is left at its default, so the
field is always required; `RichTextBlock` takes no `required` parameter. -/
def RichTextBlock.field : CharField :=
  ⟨true, none, none, none⟩

/-- `forms.DateField` / `forms.TimeField` / `forms.DateTimeField` as built by
the date/time blocks: the admin widget is fixed and `field_options` contributes
`required` and `help_text`. -/
structure TemporalField where
  required : Bool
  help_text : Option String
deriving DecidableEq

/-- `DateBlock.field`: `forms.DateField(widget=AdminDateInput, **self.field_options)`
with `field_options = {'required': required, 'help_text': help_text}`. -/
def DateBlock.field (required : Bool) (help_text : Option String) : TemporalField :=
  ⟨required, help_text⟩

/-- `TimeBlock.field`: `forms.TimeField(widget=AdminTimeInput, **self.field_options)`. -/
def TimeBlock.field (required : Bool) (help_text : Option String) : TemporalField :=
  ⟨required, help_text⟩

/-- `DateTimeBlock.field`: `forms.DateTimeField(widget=AdminDateTimeInput,
**self.field_options)`. -/
def DateTimeBlock.field (required : Bool) (help_text : Option String) : TemporalField :=
  ⟨required, help_text⟩

example : parse_date "2020-01-15" = some ⟨2020, 1, 15⟩ := by decide
example : parse_date "not-a-date" = none := by decide
example : parse_time "10:30:05" = some ⟨10, 30, 5⟩ := by decide
example : parse_datetime "2020-01-15 10:30:05" = some ⟨⟨2020, 1, 15⟩, ⟨10, 30, 5⟩⟩ := by decide
example : ChooserBlock.to_python [⟨1, "u", "t"⟩] (ChooserValue.pk 999) = ChooserValue.none := by decide
example : ChooserBlock.to_python [⟨1, "u", "t"⟩] (ChooserValue.pk 1) = ChooserValue.inst ⟨1, "u", "t"⟩ := by decide

/-- C1: `to_python (get_prep_value x)` reproduces `x` for every chooser value
whose referenced record still exists in the backing store: `get_prep_value`
maps a target-model instance to its identifier and passes every non-instance
value through unchanged, and `to_python` maps that identifier back to the
same instance. -/
theorem chooser_prep_value_to_python_round_trip (store : List Page) (x : ChooserValue) :
    (∀ p, x = ChooserValue.inst p → objects_get store p.id = some p →
      ChooserBlock.to_python store (ChooserBlock.get_prep_value x) = x)
    ∧ (∀ p, x = ChooserValue.inst p →
      ChooserBlock.get_prep_value x = ChooserValue.pk p.id)
    ∧ ((∀ p, x ≠ ChooserValue.inst p) → ChooserBlock.get_prep_value x = x) := by
  refine ⟨?_, ?_, ?_⟩
  · rintro p rfl h
    simp [ChooserBlock.get_prep_value, ChooserBlock.to_python, h]
  · rintro p rfl
    rfl
  · intro h
    cases x with
    | none => rfl
    | inst p => exact absurd rfl (h p)
    | pk n => rfl

/-- C1 witness: a one-page store, where the stored page round-trips. -/
theorem chooser_prep_value_to_python_round_trip_witness :
    objects_get [Page.mk 1 "u" "t"] (Page.mk 1 "u" "t").id = some (Page.mk 1 "u" "t")
    ∧ ChooserBlock.to_python [Page.mk 1 "u" "t"]
        (ChooserBlock.get_prep_value (ChooserValue.inst (Page.mk 1 "u" "t")))
      = ChooserValue.inst (Page.mk 1 "u" "t") :=
  ⟨by decide,
    (chooser_prep_value_to_python_round_trip [Page.mk 1 "u" "t"]
      (ChooserValue.inst (Page.mk 1 "u" "t"))).1 (Page.mk 1 "u" "t") rfl (by decide)⟩

/-- C2: the date, time and datetime blocks' `to_python` return `None` and
native values unchanged, return the parsed native value on a well-formed
string, and map an unparseable string to `None`; being a total function into
the value type, `to_python` never raises. -/
theorem scalar_to_python_parses_or_nulls (s : String) :
    (DateBlock.to_python DateValue.none = DateValue.none
      ∧ (∀ d, DateBlock.to_python (DateValue.date d) = DateValue.date d)
      ∧ (∀ d, parse_date s = some d →
          DateBlock.to_python (DateValue.str s) = DateValue.date d)
      ∧ (parse_date s = none →
          DateBlock.to_python (DateValue.str s) = DateValue.none))
    ∧ (TimeBlock.to_python TimeValue.none = TimeValue.none
      ∧ (∀ t, TimeBlock.to_python (TimeValue.time t) = TimeValue.time t)
      ∧ (∀ t, parse_time s = some t →
          TimeBlock.to_python (TimeValue.str s) = TimeValue.time t)
      ∧ (parse_time s = none →
          TimeBlock.to_python (TimeValue.str s) = TimeValue.none))
    ∧ (DateTimeBlock.to_python DateTimeValue.none = DateTimeValue.none
      ∧ (∀ dt, DateTimeBlock.to_python (DateTimeValue.datetime dt) = DateTimeValue.datetime dt)
      ∧ (∀ dt, parse_datetime s = some dt →
          DateTimeBlock.to_python (DateTimeValue.str s) = DateTimeValue.datetime dt)
      ∧ (parse_datetime s = none →
          DateTimeBlock.to_python (DateTimeValue.str s) = DateTimeValue.none)) := by
  refine ⟨⟨rfl, fun d => rfl, ?_, ?_⟩, ⟨rfl, fun t => rfl, ?_, ?_⟩,
    ⟨rfl, fun dt => rfl, ?_, ?_⟩⟩
  · intro d h
    simp [DateBlock.to_python, h]
  · intro h
    simp [DateBlock.to_python, h]
  · intro t h
    simp [TimeBlock.to_python, h]
  · intro h
    simp [TimeBlock.to_python, h]
  · intro dt h
    simp [DateTimeBlock.to_python, h]
  · intro h
    simp [DateTimeBlock.to_python, h]

/-- C2 witness: the spec's own examples, `"2020-01-15"` and `"not-a-date"`. -/
theorem scalar_to_python_parses_or_nulls_witness :
    parse_date "2020-01-15" = some (Date.mk 2020 1 15)
    ∧ DateBlock.to_python (DateValue.str "2020-01-15") = DateValue.date (Date.mk 2020 1 15)
    ∧ parse_date "not-a-date" = none
    ∧ DateBlock.to_python (DateValue.str "not-a-date") = DateValue.none :=
  ⟨by decide,
    (scalar_to_python_parses_or_nulls "2020-01-15").1.2.2.1 (Date.mk 2020 1 15) (by decide),
    by decide,
    (scalar_to_python_parses_or_nulls "not-a-date").1.2.2.2 (by decide)⟩

/-- C3: `ChooserBlock.to_python` returns `None` and target-model instances
unchanged, resolves an identifier through the backing store, and returns
`None` (rather than an error) when no record with that identifier exists. -/
theorem chooser_to_python_lookup (store : List Page) (n : Nat) :
    ChooserBlock.to_python store ChooserValue.none = ChooserValue.none
    ∧ (∀ p, ChooserBlock.to_python store (ChooserValue.inst p) = ChooserValue.inst p)
    ∧ (∀ p, objects_get store n = some p →
        ChooserBlock.to_python store (ChooserValue.pk n) = ChooserValue.inst p)
    ∧ (objects_get store n = none →
        ChooserBlock.to_python store (ChooserValue.pk n) = ChooserValue.none) := by
  refine ⟨rfl, fun p => rfl, ?_, ?_⟩
  · intro p h
    simp [ChooserBlock.to_python, h]
  · intro h
    simp [ChooserBlock.to_python, h]

/-- C3 witness: in a store holding only page 1, id 1 resolves to the page and
id 999 (the spec's example) resolves to `None`. -/
theorem chooser_to_python_lookup_witness :
    objects_get [Page.mk 1 "u" "t"] 1 = some (Page.mk 1 "u" "t")
    ∧ ChooserBlock.to_python [Page.mk 1 "u" "t"] (ChooserValue.pk 1)
      = ChooserValue.inst (Page.mk 1 "u" "t")
    ∧ objects_get [Page.mk 1 "u" "t"] 999 = none
    ∧ ChooserBlock.to_python [Page.mk 1 "u" "t"] (ChooserValue.pk 999)
      = ChooserValue.none :=
  ⟨by decide,
    (chooser_to_python_lookup [Page.mk 1 "u" "t"] 1).2.2.1 (Page.mk 1 "u" "t") (by decide),
    by decide,
    (chooser_to_python_lookup [Page.mk 1 "u" "t"] 999).2.2.2 (by decide)⟩

/-- C4: `ChooserBlock.clean` converts a target-model instance to its `pk`
before delegating to the underlying field's `clean`, and passes every
non-instance value to the field's `clean` unchanged. -/
theorem chooser_clean_converts_instance_to_pk (field : ModelChoiceField) (v : ChooserValue) :
    (∀ p, v = ChooserValue.inst p →
      ChooserBlock.clean field v
        = FieldBlock.clean (ModelChoiceField.clean field) (ChooserValue.pk p.pk))
    ∧ ((∀ p, v ≠ ChooserValue.inst p) →
      ChooserBlock.clean field v = FieldBlock.clean (ModelChoiceField.clean field) v) := by
  constructor
  · rintro p rfl
    rfl
  · intro h
    cases v with
    | none => rfl
    | inst p => exact absurd rfl (h p)
    | pk n => rfl

/-- C4 witness: a required field over a one-page store; an instance is cleaned
through its pk, and `None` is handed to the field's clean unchanged. -/
theorem chooser_clean_converts_instance_to_pk_witness :
    ChooserBlock.clean (ChooserBlock.field [Page.mk 1 "u" "t"] true)
        (ChooserValue.inst (Page.mk 1 "u" "t"))
      = FieldBlock.clean
          (ModelChoiceField.clean (ChooserBlock.field [Page.mk 1 "u" "t"] true))
          (ChooserValue.pk (Page.mk 1 "u" "t").pk)
    ∧ ChooserBlock.clean (ChooserBlock.field [Page.mk 1 "u" "t"] true) ChooserValue.none
      = FieldBlock.clean
          (ModelChoiceField.clean (ChooserBlock.field [Page.mk 1 "u" "t"] true))
          ChooserValue.none :=
  ⟨(chooser_clean_converts_instance_to_pk (ChooserBlock.field [Page.mk 1 "u" "t"] true)
      (ChooserValue.inst (Page.mk 1 "u" "t"))).1 (Page.mk 1 "u" "t") rfl,
    (chooser_clean_converts_instance_to_pk (ChooserBlock.field [Page.mk 1 "u" "t"] true)
      ChooserValue.none).2 (fun _ h => ChooserValue.noConfusion h)⟩

/-- C5: `FieldBlock.render_form` renders validation errors through exactly one
path: a widget with the `render_with_errors` capability receives the errors
and the template context's `errors` entry is suppressed to `None`; a widget
without it renders without the errors and the template context carries them. -/
theorem render_form_single_error_path {ρ α φ : Type} (name label : String)
    (classname : Option String) (field : φ) (widget_of : φ → Widget ρ α)
    (value : α) (pfx : String) (errors : Option (List String)) :
    (∀ rwe, (widget_of field).render_with_errors = some rwe →
      (FieldBlock.render_form name label classname field widget_of value pfx errors).context.errors
        = none
      ∧ (FieldBlock.render_form name label classname field widget_of value pfx errors).context.widget
        = rwe pfx value ⟨pfx, label⟩ errors)
    ∧ ((widget_of field).render_with_errors = none →
      (FieldBlock.render_form name label classname field widget_of value pfx errors).context.errors
        = errors
      ∧ (FieldBlock.render_form name label classname field widget_of value pfx errors).context.widget
        = (widget_of field).render pfx value ⟨pfx, label⟩) := by
  constructor
  · intro rwe h
    constructor <;> simp [FieldBlock.render_form, render_to_string, h]
  · intro h
    constructor <;> simp [FieldBlock.render_form, render_to_string, h]

/-- C5 witness: one widget that renders its own errors and one that cannot;
the submitted errors land in exactly one place for each. -/
theorem render_form_single_error_path_witness :
    (Widget.mk (fun _ => "id") (fun _ _ _ => "plain")
        (some (fun _ _ _ _ => "witherr")) (fun _ _ _ => (0 : Nat)) :
      Widget Nat Nat).render_with_errors = some (fun _ _ _ _ => "witherr")
    ∧ (FieldBlock.render_form "n" "L" none ()
        (fun _ => Widget.mk (fun _ => "id") (fun _ _ _ => "plain")
          (some (fun _ _ _ _ => "witherr")) (fun _ _ _ => (0 : Nat)))
        7 "p" (some ["e"])).context.errors = none
    ∧ (Widget.mk (fun _ => "id") (fun _ _ _ => "plain") none (fun _ _ _ => (0 : Nat)) :
      Widget Nat Nat).render_with_errors = none
    ∧ (FieldBlock.render_form "n" "L" none ()
        (fun _ => Widget.mk (fun _ => "id") (fun _ _ _ => "plain") none
          (fun _ _ _ => (0 : Nat)))
        7 "p" (some ["e"])).context.errors = some ["e"] :=
  ⟨rfl,
    ((render_form_single_error_path "n" "L" none ()
      (fun _ => Widget.mk (fun _ => "id") (fun _ _ _ => "plain")
        (some (fun _ _ _ _ => "witherr")) (fun _ _ _ => (0 : Nat)))
      7 "p" (some ["e"])).1 (fun _ _ _ _ => "witherr") rfl).1,
    rfl,
    ((render_form_single_error_path "n" "L" none ()
      (fun _ => Widget.mk (fun _ => "id") (fun _ _ _ => "plain") none
        (fun _ _ _ => (0 : Nat)))
      7 "p" (some ["e"])).2 rfl).1⟩

/-- C6: `FieldBlock.value_from_datadict` is exactly `to_python` composed with
the widget's `value_from_datadict` extraction. -/
theorem value_from_datadict_composes {ρ α : Type} (field_widget : Widget ρ α)
    (to_python : ρ → α) (data files : List (String × String)) (pfx : String) :
    FieldBlock.value_from_datadict field_widget to_python data files pfx
      = to_python (field_widget.value_from_datadict data files pfx) :=
  rfl

/-- C7: `RawHTMLBlock.render_basic` returns the stored string itself,
unmodified and unescaped, marked trusted for direct HTML output. -/
theorem rawhtml_render_basic_identity_trusted (v : String) :
    (RawHTMLBlock.render_basic v).value = v
    ∧ (RawHTMLBlock.render_basic v).safe = true :=
  ⟨rfl, rfl⟩

/-- C8: `PageChooserBlock.render_basic` renders a set page as an anchor whose
href is the page's (HTML-escaped) URL and whose text is the page's
(HTML-escaped) title, marked safe; with no page set it returns empty output. -/
theorem pagechooser_render_basic_link_or_empty (v : Option Page) :
    (∀ p, v = some p →
      PageChooserBlock.render_basic v
        = mark_safe ("<a href=\"" ++ escape_html p.url ++ "\">" ++
            escape_html p.title ++ "</a>"))
    ∧ (v = none → (PageChooserBlock.render_basic v).value = "") := by
  constructor
  · rintro p rfl
    rfl
  · rintro rfl
    rfl

/-- C8 witness: a concrete page renders as its link; `None` renders empty. -/
theorem pagechooser_render_basic_link_or_empty_witness :
    PageChooserBlock.render_basic (some (Page.mk 1 "http://e/" "Hi"))
      = mark_safe ("<a href=\"" ++ escape_html "http://e/" ++ "\">" ++
          escape_html "Hi" ++ "</a>")
    ∧ (PageChooserBlock.render_basic (none : Option Page)).value = "" :=
  ⟨(pagechooser_render_basic_link_or_empty (some (Page.mk 1 "http://e/" "Hi"))).1
      (Page.mk 1 "http://e/" "Hi") rfl,
    (pagechooser_render_basic_link_or_empty (none : Option Page)).2 rfl⟩

/-- C9: `to_python` is idempotent for the date, time and datetime blocks: its
result is always `None` or a native value, which the first branch returns
unchanged. -/
theorem scalar_to_python_idempotent (v : DateValue) (w : TimeValue) (u : DateTimeValue) :
    DateBlock.to_python (DateBlock.to_python v) = DateBlock.to_python v
    ∧ TimeBlock.to_python (TimeBlock.to_python w) = TimeBlock.to_python w
    ∧ DateTimeBlock.to_python (DateTimeBlock.to_python u) = DateTimeBlock.to_python u := by
  refine ⟨?_, ?_, ?_⟩
  · cases v with
    | none => rfl
    | date d => rfl
    | str s =>
      cases h : parse_date s <;> simp [DateBlock.to_python, h]
  · cases w with
    | none => rfl
    | time t => rfl
    | str s =>
      cases h : parse_time s <;> simp [TimeBlock.to_python, h]
  · cases u with
    | none => rfl
    | datetime dt => rfl
    | str s =>
      cases h : parse_datetime s <;> simp [DateTimeBlock.to_python, h]

/-- C10: `RichTextBlock`'s field is built with no constructor parameters, so
it is always required and `clean` on an empty value signals a validation
error; every other field block (Char, URL, RawHTML, Date, Time, DateTime,
Chooser) exposes a `required` flag that its field honours, and an optional
field accepts an empty value. -/
theorem richtext_field_always_required :
    RichTextBlock.field.required = true
    ∧ RichTextBlock.field.clean Option.none = Except.error "This field is required."
    ∧ (CharBlock.field false Option.none Option.none Option.none).clean Option.none
      = Except.ok ""
    ∧ (∀ r h m n, (CharBlock.field r h m n).required = r)
    ∧ (∀ r h m n, (URLBlock.field r h m n).required = r)
    ∧ (∀ r h m n, (RawHTMLBlock.field r h m n).required = r)
    ∧ (∀ r h, (DateBlock.field r h).required = r)
    ∧ (∀ r h, (TimeBlock.field r h).required = r)
    ∧ (∀ r h, (DateTimeBlock.field r h).required = r)
    ∧ (∀ qs r, (ChooserBlock.field qs r).required = r) := by
  refine ⟨rfl, rfl, rfl, fun r h m n => rfl, fun r h m n => rfl,
    fun r h m n => rfl, fun r h => rfl, fun r h => rfl, fun r h => rfl,
    fun qs r => rfl⟩
